import Mathlib

/-!
Shallow embedding of the gov-budget-request-form core: the request/item/file
data model (server/src/db schema), the mutation handlers, and the query layer.
Monetary `numeric(15,2)` columns are stored as decimal strings by the database
driver; a scale-2 decimal is exactly a whole number of cents, so we model such
a storage string as `NumericVal`, a wrapper around its exact value as a scaled
integer.  `parseFloat` on such a string and `toString` back are
value-preserving for the 15-digit, scale-2 decimals the schema admits, so both
are modelled as the identity on the wrapped integer.  Timestamps are `Nat`
ticks; the current time is passed explicitly to each handler wherever the code
calls `new Date()`.  Store-assigned serial ids are passed explicitly where the
code relies on the database to assign them.
-/

/-- Budget request status enum (budget_request_status in the schema). -/
inductive Status where
  | draft
  | submitted
  | under_review
  | approved
  | rejected
  | revision_requested
deriving DecidableEq

/-- The SQL string of a status value, as interpolated into error messages. -/
def Status.toStr : Status → String
  | .draft => "draft"
  | .submitted => "submitted"
  | .under_review => "under_review"
  | .approved => "approved"
  | .rejected => "rejected"
  | .revision_requested => "revision_requested"

/-- Budget category enum (budget_category in the schema). -/
inductive Category where
  | personnel
  | goods_services
  | capital_expenditure
  | operational
  | maintenance
  | training
  | travel
  | other
deriving DecidableEq

/-- Priority level enum (priority_level in the schema). -/
inductive Priority where
  | critical
  | high
  | medium
  | low
deriving DecidableEq

/-- The decimal string stored in a `numeric(15,2)` column, identified with the
exact scaled-integer value it denotes. -/
structure NumericVal where
  val : Int
deriving DecidableEq

/-- JavaScript `parseFloat` applied to the storage string of a numeric column:
exact for the decimals the schema admits, hence the wrapped value itself. -/
def parseNumeric (s : NumericVal) : Int := s.val

/-- A row of the budget_requests table. -/
structure RequestRow where
  id : Nat
  department_name : String
  department_code : Option String
  contact_person : String
  contact_email : String
  contact_phone : Option String
  fiscal_year : Int
  request_title : String
  request_description : String
  total_amount : NumericVal
  priority_level : Priority
  justification : String
  expected_outcomes : String
  timeline_start : Option Nat
  timeline_end : Option Nat
  status : Status
  submitted_at : Option Nat
  reviewed_at : Option Nat
  reviewer_notes : Option String
  created_at : Nat
  updated_at : Nat
deriving DecidableEq

/-- A row of the budget_items table. -/
structure ItemRow where
  id : Nat
  budget_request_id : Nat
  category : Category
  description : String
  unit : Option String
  quantity : Option Int
  unit_cost : NumericVal
  total_cost : NumericVal
  justification : Option String
  created_at : Nat
deriving DecidableEq

/-- A row of the file_uploads table. -/
structure FileRow where
  id : Nat
  budget_request_id : Nat
  filename : String
  original_filename : String
  file_path : String
  file_size : Nat
  mime_type : String
  uploaded_at : Nat
deriving DecidableEq

/-- The relational store: the three tables the core persists. -/
structure DB where
  requests : List RequestRow
  items : List ItemRow
  files : List FileRow
deriving DecidableEq

/-- API-facing BudgetRequest entity: identical to the row except that
total_amount is a native number (the parseFloat of the storage string). -/
structure BudgetRequestOut where
  id : Nat
  department_name : String
  department_code : Option String
  contact_person : String
  contact_email : String
  contact_phone : Option String
  fiscal_year : Int
  request_title : String
  request_description : String
  total_amount : Int
  priority_level : Priority
  justification : String
  expected_outcomes : String
  timeline_start : Option Nat
  timeline_end : Option Nat
  status : Status
  submitted_at : Option Nat
  reviewed_at : Option Nat
  reviewer_notes : Option String
  created_at : Nat
  updated_at : Nat
deriving DecidableEq

/-- Spread-and-convert performed on every request read path:
`{ ...row, total_amount: parseFloat(row.total_amount) }`. -/
def requestToOut (r : RequestRow) : BudgetRequestOut :=
  { id := r.id
    department_name := r.department_name
    department_code := r.department_code
    contact_person := r.contact_person
    contact_email := r.contact_email
    contact_phone := r.contact_phone
    fiscal_year := r.fiscal_year
    request_title := r.request_title
    request_description := r.request_description
    total_amount := parseNumeric r.total_amount
    priority_level := r.priority_level
    justification := r.justification
    expected_outcomes := r.expected_outcomes
    timeline_start := r.timeline_start
    timeline_end := r.timeline_end
    status := r.status
    submitted_at := r.submitted_at
    reviewed_at := r.reviewed_at
    reviewer_notes := r.reviewer_notes
    created_at := r.created_at
    updated_at := r.updated_at }

/-- API-facing BudgetItem entity: the row with unit_cost and total_cost as
native numbers. -/
structure BudgetItemOut where
  id : Nat
  budget_request_id : Nat
  category : Category
  description : String
  unit : Option String
  quantity : Option Int
  unit_cost : Int
  total_cost : Int
  justification : Option String
  created_at : Nat
deriving DecidableEq

/-- Spread-and-convert on the item read path. -/
def itemToOut (i : ItemRow) : BudgetItemOut :=
  { id := i.id
    budget_request_id := i.budget_request_id
    category := i.category
    description := i.description
    unit := i.unit
    quantity := i.quantity
    unit_cost := parseNumeric i.unit_cost
    total_cost := parseNumeric i.total_cost
    justification := i.justification
    created_at := i.created_at }

/-- SELECT ... WHERE id = ?: first (in practice only) matching row. -/
def findRequest (db : DB) (id : Nat) : Option RequestRow :=
  db.requests.find? (fun r => r.id = id)

/-- SELECT ... WHERE id = ? on budget_items. -/
def findItem (db : DB) (id : Nat) : Option ItemRow :=
  db.items.find? (fun i => i.id = id)

/-- SELECT ... WHERE id = ? on file_uploads. -/
def findFile (db : DB) (id : Nat) : Option FileRow :=
  db.files.find? (fun f => f.id = id)

/-- The editable status class appearing verbatim in the delete and upload
handlers: `const editableStatuses = ['draft', 'revision_requested']`. -/
def editableStatuses : List Status := [Status.draft, Status.revision_requested]

/-- Exact SQL sum of total_cost over the items of one parent request, as read
back through parseFloat (COALESCE(SUM(total_cost), 0)). -/
def sumItems (db : DB) (pid : Nat) : Int :=
  ((db.items.filter (fun i => i.budget_request_id = pid)).map
    (fun i => parseNumeric i.total_cost)).sum

/-- Executable model of JavaScript String.prototype.trim: drop whitespace
from both ends. -/
def trimStr (s : String) : String :=
  String.mk (((s.data.dropWhile Char.isWhitespace).reverse.dropWhile
    Char.isWhitespace).reverse)

/-- The required-field list built by submitBudgetRequest, in its declared
order, each paired with the check that marks it missing: for the text columns,
`!value || value.trim() === ''`, which for a non-null string is exactly
blank-after-trim; total_amount is the storage string of a not-null numeric
column, which is never empty, so its check is constantly false. -/
def requiredFieldChecks (r : RequestRow) : List (String × Bool) :=
  [("department_name", trimStr r.department_name = ""),
   ("contact_person", trimStr r.contact_person = ""),
   ("contact_email", trimStr r.contact_email = ""),
   ("request_title", trimStr r.request_title = ""),
   ("request_description", trimStr r.request_description = ""),
   ("total_amount", false),
   ("justification", trimStr r.justification = ""),
   ("expected_outcomes", trimStr r.expected_outcomes = "")]

/-- Object.entries(requiredFields).filter(missing).map(key). -/
def missingFields (r : RequestRow) : List String :=
  ((requiredFieldChecks r).filter (fun p => p.2)).map (fun p => p.1)

/-- UPDATE budget_requests SET status, submitted_at, updated_at WHERE id. -/
def applySubmit (db : DB) (id : Nat) (now : Nat) : DB :=
  { db with
    requests := db.requests.map (fun r =>
      if r.id = id then
        { r with status := Status.submitted
                 submitted_at := some now
                 updated_at := now }
      else r) }

/-- Handler submitBudgetRequest (server/src/handlers/submit_budget_request.ts):
look up the request, require draft status, require the eight declared fields
non-blank, require a positive total, then persist the transition and return
the updated entity with total_amount as a native number. -/
def submitBudgetRequest (db : DB) (id : Nat) (now : Nat) :
    DB × Except String BudgetRequestOut :=
  match findRequest db id with
  | none =>
      (db, Except.error
        ("Budget request with id " ++ toString id ++ " not found"))
  | some r =>
      if r.status ≠ Status.draft then
        (db, Except.error
          ("Budget request with id " ++ toString id ++
            " is not in draft status. Current status: " ++ r.status.toStr))
      else if missingFields r ≠ [] then
        (db, Except.error
          ("Cannot submit budget request. Missing required fields: " ++
            String.intercalate ", " (missingFields r)))
      else if parseNumeric r.total_amount ≤ 0 then
        (db, Except.error
          "Cannot submit budget request. Total amount must be greater than 0")
      else
        (applySubmit db id now,
         Except.ok (requestToOut
           { r with status := Status.submitted
                    submitted_at := some now
                    updated_at := now }))

/-- CreateBudgetItemInput (schema.ts): all fields required except the nullable
unit, quantity, justification; unit_cost and total_cost arrive as numbers and
are stringified into the numeric columns. -/
structure CreateBudgetItemInput where
  budget_request_id : Nat
  category : Category
  description : String
  unit : Option String
  quantity : Option Int
  unit_cost : Int
  total_cost : Int
  justification : Option String
deriving DecidableEq

/-- The VALUES clause of the insert performed by createBudgetItem. -/
def newItemRow (input : CreateBudgetItemInput) (newId now : Nat) : ItemRow :=
  { id := newId
    budget_request_id := input.budget_request_id
    category := input.category
    description := input.description
    unit := input.unit
    quantity := input.quantity
    unit_cost := ⟨input.unit_cost⟩
    total_cost := ⟨input.total_cost⟩
    justification := input.justification
    created_at := now }

/-- Handler createBudgetItem (server/src/handlers/create_budget_item.ts):
requires the parent to exist and not be approved or rejected, then inserts the
row; the parent total_amount is not touched.  newId stands for the serial id
the store assigns; now for the created_at default. -/
def createBudgetItem (db : DB) (input : CreateBudgetItemInput)
    (newId : Nat) (now : Nat) : DB × Except String BudgetItemOut :=
  match findRequest db input.budget_request_id with
  | none =>
      (db, Except.error
        ("Budget request with id " ++ toString input.budget_request_id ++
          " not found"))
  | some req =>
      if req.status = Status.approved ∨ req.status = Status.rejected then
        (db, Except.error
          ("Cannot add budget items to a " ++ req.status.toStr ++
            " budget request"))
      else
        let row := newItemRow input newId now
        ({ db with items := db.items ++ [row] }, Except.ok (itemToOut row))

/-- Handler deleteBudgetItem (the implemented version in
server/src/handlers/update_budget_item.ts): locate the item (false if absent),
locate the parent (false if absent), require the parent status to be in
editableStatuses (false if not), delete the row, then recompute and persist
the parent total_amount together with a bumped updated_at, returning true.
The rowCount guard after the delete is always satisfied here because the row
was just found. -/
def deleteBudgetItem (db : DB) (id : Nat) (now : Nat) : DB × Bool :=
  match findItem db id with
  | none => (db, false)
  | some item =>
      match findRequest db item.budget_request_id with
      | none => (db, false)
      | some req =>
          if req.status ∈ editableStatuses then
            let items2 := db.items.filter (fun i => ¬ i.id = id)
            let db2 : DB := { db with items := items2 }
            let newTotal := sumItems db2 item.budget_request_id
            let db3 : DB :=
              { db2 with
                requests := db2.requests.map (fun r =>
                  if r.id = item.budget_request_id then
                    { r with total_amount := ⟨newTotal⟩, updated_at := now }
                  else r) }
            (db3, true)
          else (db, false)

/-- CreateFileUploadInput (schema.ts). -/
structure CreateFileUploadInput where
  budget_request_id : Nat
  filename : String
  original_filename : String
  file_path : String
  file_size : Nat
  mime_type : String
deriving DecidableEq

/-- The 50 MiB limit in uploadFile: `50 * 1024 * 1024`. -/
def maxFileSize : Nat := 50 * 1024 * 1024

/-- The MIME allow-list in uploadFile, verbatim. -/
def allowedMimeTypes : List String :=
  ["application/pdf",
   "application/vnd.ms-excel",
   "application/vnd.openxmlformats-officedocument.spreadsheetml.sheet",
   "text/csv",
   "application/msword",
   "application/vnd.openxmlformats-officedocument.wordprocessingml.document",
   "text/plain",
   "image/jpeg",
   "image/png"]

/-- The VALUES clause of the insert performed by uploadFile. -/
def newFileRow (input : CreateFileUploadInput) (newId now : Nat) : FileRow :=
  { id := newId
    budget_request_id := input.budget_request_id
    filename := input.filename
    original_filename := input.original_filename
    file_path := input.file_path
    file_size := input.file_size
    mime_type := input.mime_type
    uploaded_at := now }

/-- Handler uploadFile (unnamed source, uploadFile): parent must exist, parent
status must be in editableStatuses, file_size at most the 50 MiB limit,
mime_type in the allow-list; then the metadata row is inserted and returned
(no numeric conversion on this table). -/
def uploadFile (db : DB) (input : CreateFileUploadInput)
    (newId : Nat) (now : Nat) : DB × Except String FileRow :=
  match findRequest db input.budget_request_id with
  | none =>
      (db, Except.error
        ("Budget request with ID " ++ toString input.budget_request_id ++
          " not found"))
  | some req =>
      if req.status ∉ editableStatuses then
        (db, Except.error
          ("Cannot upload files to budget request with status: " ++
            req.status.toStr))
      else if input.file_size > maxFileSize then
        (db, Except.error
          ("File size " ++ toString input.file_size ++
            " bytes exceeds maximum allowed size of " ++
            toString maxFileSize ++ " bytes"))
      else if input.mime_type ∉ allowedMimeTypes then
        (db, Except.error
          ("File type " ++ input.mime_type ++ " is not allowed"))
      else
        let row := newFileRow input newId now
        ({ db with files := db.files ++ [row] }, Except.ok row)

/-- Handler deleteFileUpload (unnamed source, deleteFileUpload): the joined
select yields the file row plus its parent status; empty join means false
(file absent, or - defensively - parent absent); a parent outside
editableStatuses means false.  The physical unlink is attempted only when the
file exists on disk (fsExists); its failure (unlinkFails) is caught and
logged, and every branch of the try/catch leaves fileDeleted true, so the
metadata row is deleted and the handler returns true regardless of the
filesystem outcome. -/
def deleteFileUpload (db : DB) (fsExists : String → Bool)
    (unlinkFails : String → Bool) (id : Nat) : DB × Bool :=
  match findFile db id with
  | none => (db, false)
  | some f =>
      match findRequest db f.budget_request_id with
      | none => (db, false)
      | some req =>
          if req.status ∈ editableStatuses then
            let fileDeleted :=
              if fsExists f.file_path then
                if unlinkFails f.file_path then true else true
              else true
            let files2 := db.files.filter (fun x => ¬ x.id = id)
            ({ db with files := files2 }, true && fileDeleted)
          else (db, false)

/-- Result of the database select behind getBudgetRequestById: either the
rows matching the id, or a storage failure. -/
def getBudgetRequestById (sel : Except String (List RequestRow)) :
    Except String (Option BudgetRequestOut) :=
  match sel with
  | Except.error e => Except.error e
  | Except.ok rows =>
      match rows with
      | [] => Except.ok none
      | r :: _ => Except.ok (some (requestToOut r))

/-- The effect of the non-failing store on the handler's select. -/
def selectRequestRows (db : DB) (id : Nat) : Except String (List RequestRow) :=
  Except.ok (db.requests.filter (fun r => r.id = id))

/-- One optional field of a partial-update payload: either omitted (leave the
stored value unchanged) or supplied with a value.  For a nullable column the
supplied value is an Option, so supplying none is the explicit null that
clears the field - the zod update schemas distinguish exactly these three
shapes via .optional() and .nullable(). -/
inductive Upd (α : Type) where
  | keep
  | put (v : α)
deriving DecidableEq

/-- The `input.field !== undefined ? input.field : oldValue` pattern. -/
def applyUpd {α : Type} : Upd α → α → α
  | Upd.keep, old => old
  | Upd.put v, _ => v

/-- UpdateBudgetRequestInput (schema.ts): id plus the sixteen optional
fields. -/
structure UpdateBudgetRequestInput where
  id : Nat
  department_name : Upd String
  department_code : Upd (Option String)
  contact_person : Upd String
  contact_email : Upd String
  contact_phone : Upd (Option String)
  fiscal_year : Upd Int
  request_title : Upd String
  request_description : Upd String
  total_amount : Upd Int
  priority_level : Upd Priority
  justification : Upd String
  expected_outcomes : Upd String
  timeline_start : Upd (Option Nat)
  timeline_end : Upd (Option Nat)
  status : Upd Status
  reviewer_notes : Upd (Option String)
deriving DecidableEq

/-- The SET clause built by updateBudgetRequest: updated_at always, and each
input field that is provided (a provided null is written as null). -/
def applyRequestUpdate (input : UpdateBudgetRequestInput) (now : Nat)
    (r : RequestRow) : RequestRow :=
  { r with
    department_name := applyUpd input.department_name r.department_name
    department_code := applyUpd input.department_code r.department_code
    contact_person := applyUpd input.contact_person r.contact_person
    contact_email := applyUpd input.contact_email r.contact_email
    contact_phone := applyUpd input.contact_phone r.contact_phone
    fiscal_year := applyUpd input.fiscal_year r.fiscal_year
    request_title := applyUpd input.request_title r.request_title
    request_description :=
      applyUpd input.request_description r.request_description
    total_amount :=
      match input.total_amount with
      | Upd.keep => r.total_amount
      | Upd.put v => ⟨v⟩
    priority_level := applyUpd input.priority_level r.priority_level
    justification := applyUpd input.justification r.justification
    expected_outcomes := applyUpd input.expected_outcomes r.expected_outcomes
    timeline_start := applyUpd input.timeline_start r.timeline_start
    timeline_end := applyUpd input.timeline_end r.timeline_end
    status := applyUpd input.status r.status
    reviewer_notes := applyUpd input.reviewer_notes r.reviewer_notes
    updated_at := now }

/-- Handler updateBudgetRequest
(server/src/handlers/update_budget_request.ts): the request must exist; the
update writes updated_at plus exactly the provided fields and returns the
updated entity with total_amount as a native number. -/
def updateBudgetRequest (db : DB) (input : UpdateBudgetRequestInput)
    (now : Nat) : DB × Except String BudgetRequestOut :=
  match findRequest db input.id with
  | none =>
      (db, Except.error
        ("Budget request with ID " ++ toString input.id ++ " not found"))
  | some r =>
      let db2 : DB :=
        { db with
          requests := db.requests.map (fun x =>
            if x.id = input.id then applyRequestUpdate input now x else x) }
      (db2, Except.ok (requestToOut (applyRequestUpdate input now r)))

/-- UpdateBudgetItemInput (schema.ts). -/
structure UpdateBudgetItemInput where
  id : Nat
  category : Upd Category
  description : Upd String
  unit : Upd (Option String)
  quantity : Upd (Option Int)
  unit_cost : Upd Int
  total_cost : Upd Int
  justification : Upd (Option String)
deriving DecidableEq

/-- Derived total_cost of an item update: an explicitly supplied total_cost
is stored verbatim; otherwise, when unit_cost and/or quantity is supplied,
the stored value is recomputed as the effective unit_cost times the effective
quantity, a null or absent quantity counting as 1; when none of the three is
supplied the stored total_cost stays. -/
def derivedTotalCost (input : UpdateBudgetItemInput) (item : ItemRow) : Int :=
  match input.total_cost with
  | Upd.put v => v
  | Upd.keep =>
      if input.unit_cost = Upd.keep ∧ input.quantity = Upd.keep then
        parseNumeric item.total_cost
      else
        let effUnit :=
          match input.unit_cost with
          | Upd.put v => v
          | Upd.keep => parseNumeric item.unit_cost
        let effQty :=
          match applyUpd input.quantity item.quantity with
          | some q => (q : Int)
          | none => 1
        effUnit * effQty

/-- The updated item row an update produces. -/
def applyItemUpdate (input : UpdateBudgetItemInput) (item : ItemRow) :
    ItemRow :=
  { item with
    category := applyUpd input.category item.category
    description := applyUpd input.description item.description
    unit := applyUpd input.unit item.unit
    quantity := applyUpd input.quantity item.quantity
    unit_cost :=
      match input.unit_cost with
      | Upd.keep => item.unit_cost
      | Upd.put v => ⟨v⟩
    total_cost := ⟨derivedTotalCost input item⟩
    justification := applyUpd input.justification item.justification }

/-- Modelled from the spec: the real updateBudgetItem implementation is absent
from the repository sources (server/src/handlers/update_budget_item.ts holds
only a placeholder declaration); this definition follows the spec - locate
the item (not-found error), forbid the mutation unless the parent status is
in the editable class of the lifecycle guard (draft or revision_requested),
rejecting with an error that names the current status, update only the
provided fields, recompute total_cost per the derived-field rule, recompute
and persist the parent total_amount with a bumped updated_at, and return the
updated item with native numbers.  (The repository's update_budget_item
tests expect a weaker gate that also admits a submitted parent; the spec's
editable-class words govern this model.) -/
def updateBudgetItem (db : DB) (input : UpdateBudgetItemInput) (now : Nat) :
    DB × Except String BudgetItemOut :=
  match findItem db input.id with
  | none =>
      (db, Except.error
        ("Budget item with id " ++ toString input.id ++ " not found"))
  | some item =>
      match findRequest db item.budget_request_id with
      | none =>
          (db, Except.error
            ("Budget request with id " ++
              toString item.budget_request_id ++ " not found"))
      | some req =>
          if req.status ∉ editableStatuses then
            (db, Except.error
              ("Cannot update budget items of a " ++ req.status.toStr ++
                " budget request"))
          else
            let item2 := applyItemUpdate input item
            let db2 : DB :=
              { db with
                items := db.items.map (fun i =>
                  if i.id = input.id then item2 else i) }
            let newTotal := sumItems db2 item.budget_request_id
            let db3 : DB :=
              { db2 with
                requests := db2.requests.map (fun r =>
                  if r.id = item.budget_request_id then
                    { r with total_amount := ⟨newTotal⟩, updated_at := now }
                  else r) }
            (db3, Except.ok (itemToOut item2))

/-- GetBudgetRequestsQuery (schema.ts): four optional equality filters plus
limit and offset (defaults applied by zod before the handler runs). -/
structure GetBudgetRequestsQuery where
  department_name : Option String
  fiscal_year : Option Int
  status : Option Status
  priority_level : Option Priority
  limit : Nat
  offset : Nat
deriving DecidableEq

/-- Paginated response shape. -/
structure PaginatedBudgetRequests where
  data : List BudgetRequestOut
  total : Nat
  limit : Nat
  offset : Nat
  has_more : Bool
deriving DecidableEq

/-- Conjunction of the WHERE conditions getBudgetRequests pushes.  The
handler guards the department_name, status and priority_level filters with
JavaScript truthiness (`if (query.department_name)`), so a department_name
supplied as the empty string pushes no condition and every row passes that
conjunct; fiscal_year alone is guarded with `!== undefined`.  status and
priority_level are enum values, never empty when present. -/
def matchesQuery (q : GetBudgetRequestsQuery) (r : RequestRow) : Bool :=
  (match q.department_name with
   | some s => s = "" || r.department_name = s
   | none => true)
  && (match q.fiscal_year with
      | some y => r.fiscal_year = y
      | none => true)
  && (match q.status with
      | some st => r.status = st
      | none => true)
  && (match q.priority_level with
      | some p => r.priority_level = p
      | none => true)

/-- ORDER BY created_at DESC as a relation on rows. -/
def createdDesc (a b : RequestRow) : Prop := b.created_at ≤ a.created_at

instance : DecidableRel createdDesc :=
  fun a b => Nat.decLe b.created_at a.created_at

instance : IsTotal RequestRow createdDesc :=
  ⟨fun a b => Nat.le_total b.created_at a.created_at⟩

instance : IsTrans RequestRow createdDesc :=
  ⟨fun _ _ _ h1 h2 => Nat.le_trans h2 h1⟩

/-- Handler getBudgetRequests (the implemented version in
server/src/handlers/get_budget_requests.ts): filter, order newest-created
first, window with offset and limit, count all matches for total, and set
has_more to offset + limit < total; rows are returned with total_amount as a
native number. -/
def getBudgetRequests (db : DB) (q : GetBudgetRequestsQuery) :
    PaginatedBudgetRequests :=
  let matched := db.requests.filter (matchesQuery q)
  let sorted := List.insertionSort createdDesc matched
  let page := (sorted.drop q.offset).take q.limit
  { data := page.map requestToOut
    total := matched.length
    limit := q.limit
    offset := q.offset
    has_more := decide (q.offset + q.limit < matched.length) }

/-- The declared required-field order named by the submit error contract. -/
def declaredFieldOrder : List String :=
  ["department_name", "contact_person", "contact_email", "request_title",
   "request_description", "total_amount", "justification",
   "expected_outcomes"]

/-- Whether a required field of the given name is blank on the row; the
total_amount storage string of a not-null numeric column is never blank. -/
def fieldBlank (r : RequestRow) : String → Bool
  | "department_name" => trimStr r.department_name = ""
  | "contact_person" => trimStr r.contact_person = ""
  | "contact_email" => trimStr r.contact_email = ""
  | "request_title" => trimStr r.request_title = ""
  | "request_description" => trimStr r.request_description = ""
  | "justification" => trimStr r.justification = ""
  | "expected_outcomes" => trimStr r.expected_outcomes = ""
  | _ => false

/-- Filtering a name list by a predicate that agrees with attached check bits
is the same as keeping the names of the set bits. -/
lemma filter_map_fst (p : String → Bool) :
    ∀ l : List (String × Bool), (∀ x ∈ l, p x.1 = x.2) →
      (l.map Prod.fst).filter p = (l.filter (fun x => x.2)).map Prod.fst := by
  intro l
  induction l with
  | nil => intro _; rfl
  | cons a t ih =>
      intro h
      have ha : p a.1 = a.2 := h a (by simp)
      have ht : ∀ x ∈ t, p x.1 = x.2 := fun x hx => h x (by simp [hx])
      cases hb : a.2 <;>
        simp [List.filter_cons, ha, hb, ih ht]

/-- The missing-field list is exactly the blank fields in declared order. -/
lemma missingFields_eq_filter (r : RequestRow) :
    missingFields r = declaredFieldOrder.filter (fieldBlank r) := by
  have hord : declaredFieldOrder = (requiredFieldChecks r).map Prod.fst := rfl
  have hagree : ∀ x ∈ requiredFieldChecks r, fieldBlank r x.1 = x.2 := by
    intro x hx
    simp only [requiredFieldChecks, List.mem_cons, List.mem_singleton,
      List.not_mem_nil] at hx
    rcases hx with h | h | h | h | h | h | h | h | h <;>
      first
        | (subst h; rfl)
        | exact absurd h (by simp)
  rw [hord, filter_map_fst (fieldBlank r) (requiredFieldChecks r) hagree]
  rfl

/-- A concrete, fully complete request row used by witnesses. -/
def exReq (st : Status) (amt : Int) : RequestRow :=
  { id := 1
    department_name := "Engineering"
    department_code := some "ENG001"
    contact_person := "Alex Doe"
    contact_email := "alex.doe@example.gov"
    contact_phone := none
    fiscal_year := 2024
    request_title := "New Development Tools"
    request_description := "Purchase of new development tools"
    total_amount := ⟨amt⟩
    priority_level := Priority.medium
    justification := "A sufficiently detailed justification text"
    expected_outcomes := "Faster development cycles"
    timeline_start := none
    timeline_end := none
    status := st
    submitted_at := none
    reviewed_at := none
    reviewer_notes := none
    created_at := 10
    updated_at := 10 }

/-- A concrete item row belonging to request 1. -/
def exItem : ItemRow :=
  { id := 1
    budget_request_id := 1
    category := Category.operational
    description := "Laptops"
    unit := some "pieces"
    quantity := some 10
    unit_cost := ⟨50⟩
    total_cost := ⟨500⟩
    justification := none
    created_at := 11 }

/-- A concrete item create payload for request 1. -/
def exItemInput : CreateBudgetItemInput :=
  { budget_request_id := 1
    category := Category.operational
    description := "Laptops"
    unit := some "pieces"
    quantity := some 2
    unit_cost := 50
    total_cost := 100
    justification := none }

/-- C3: submitBudgetRequest checks its preconditions in a fixed order: a
non-existent id fails not-found; a non-draft request fails naming the current
status regardless of field completeness; a draft with blank required fields
fails enumerating every missing field, comma-joined, in the declared order;
a complete draft with total_amount at most zero fails with the
invalid-amount error.  In each case the store is left unchanged. -/
theorem submitBudgetRequest_precondition_order (db : DB) (id now : Nat) :
    (findRequest db id = none →
      submitBudgetRequest db id now =
        (db, Except.error
          ("Budget request with id " ++ toString id ++ " not found"))) ∧
    (∀ r, findRequest db id = some r → r.status ≠ Status.draft →
      submitBudgetRequest db id now =
        (db, Except.error
          ("Budget request with id " ++ toString id ++
            " is not in draft status. Current status: " ++ r.status.toStr))) ∧
    (∀ r, findRequest db id = some r → r.status = Status.draft →
      missingFields r ≠ [] →
      submitBudgetRequest db id now =
        (db, Except.error
          ("Cannot submit budget request. Missing required fields: " ++
            String.intercalate ", "
              (declaredFieldOrder.filter (fieldBlank r))))) ∧
    (∀ r, findRequest db id = some r → r.status = Status.draft →
      missingFields r = [] → parseNumeric r.total_amount ≤ 0 →
      submitBudgetRequest db id now =
        (db, Except.error
          "Cannot submit budget request. Total amount must be greater than 0")) := by
  refine ⟨?_, ?_, ?_, ?_⟩
  · intro hnone
    simp [submitBudgetRequest, hnone]
  · intro r hr hst
    simp [submitBudgetRequest, hr, hst]
  · intro r hr hst hmiss
    rw [← missingFields_eq_filter]
    simp [submitBudgetRequest, hr, hst, hmiss]
  · intro r hr hst hmiss hamt
    simp [submitBudgetRequest, hr, hst, hmiss, hamt]

/-- Empty store. -/
def wDbEmpty : DB := { requests := [], items := [], files := [] }

/-- A submitted (non-draft) request and its store. -/
def wReqSubmitted : RequestRow := exReq Status.submitted 1000

/-- Store holding only the submitted request. -/
def wDbSubmitted : DB := { requests := [wReqSubmitted], items := [], files := [] }

/-- A draft with a blank contact_person and a whitespace-only request_title. -/
def wReqBlank : RequestRow :=
  { exReq Status.draft 1000 with contact_person := "", request_title := "  " }

/-- Store holding only the incomplete draft. -/
def wDbBlank : DB := { requests := [wReqBlank], items := [], files := [] }

/-- A complete draft whose stored total_amount is -100. -/
def wReqNeg : RequestRow := exReq Status.draft (-100)

/-- Store holding only the negative-total draft. -/
def wDbNeg : DB := { requests := [wReqNeg], items := [], files := [] }

/-- Witness for C3: each precondition failure observed on a concrete store. -/
theorem submitBudgetRequest_precondition_order_witness :
    (submitBudgetRequest wDbEmpty 7 99 =
      (wDbEmpty, Except.error
        ("Budget request with id " ++ toString 7 ++ " not found"))) ∧
    (submitBudgetRequest wDbSubmitted 1 99 =
      (wDbSubmitted, Except.error
        ("Budget request with id " ++ toString 1 ++
          " is not in draft status. Current status: " ++
          wReqSubmitted.status.toStr))) ∧
    (submitBudgetRequest wDbBlank 1 99 =
      (wDbBlank, Except.error
        ("Cannot submit budget request. Missing required fields: " ++
          String.intercalate ", "
            (declaredFieldOrder.filter (fieldBlank wReqBlank))))) ∧
    (submitBudgetRequest wDbNeg 1 99 =
      (wDbNeg, Except.error
        "Cannot submit budget request. Total amount must be greater than 0")) := by
  refine ⟨?_, ?_, ?_, ?_⟩
  · exact (submitBudgetRequest_precondition_order wDbEmpty 7 99).1 (by decide)
  · exact (submitBudgetRequest_precondition_order wDbSubmitted 1 99).2.1
      wReqSubmitted (by decide) (by decide)
  · exact (submitBudgetRequest_precondition_order wDbBlank 1 99).2.2.1
      wReqBlank (by decide) (by decide) (by decide)
  · exact (submitBudgetRequest_precondition_order wDbNeg 1 99).2.2.2
      wReqNeg (by decide) (by decide) (by decide) (by decide)

/-- C5: submitBudgetRequest is atomic: every precondition failure leaves the
store untouched (status never transitions), and on success exactly status,
submitted_at and updated_at of the targeted request change, with the
returned entity carrying total_amount as the native number parsed from the
stored numeric. -/
theorem submitBudgetRequest_atomicity (db : DB) (id now : Nat) :
    (∀ e, (submitBudgetRequest db id now).2 = Except.error e →
      (submitBudgetRequest db id now).1 = db) ∧
    (∀ out, (submitBudgetRequest db id now).2 = Except.ok out →
      ∃ r, findRequest db id = some r ∧ r.status = Status.draft ∧
        (submitBudgetRequest db id now).1.requests =
          db.requests.map (fun x =>
            if x.id = id then
              { x with status := Status.submitted
                       submitted_at := some now
                       updated_at := now }
            else x) ∧
        (submitBudgetRequest db id now).1.items = db.items ∧
        (submitBudgetRequest db id now).1.files = db.files ∧
        out = requestToOut
          { r with status := Status.submitted
                   submitted_at := some now
                   updated_at := now } ∧
        out.total_amount = parseNumeric r.total_amount) := by
  cases hfind : findRequest db id with
  | none =>
      have hres : submitBudgetRequest db id now =
          (db, Except.error
            ("Budget request with id " ++ toString id ++ " not found")) := by
        simp [submitBudgetRequest, hfind]
      refine ⟨fun e he => by rw [hres], fun out hout => ?_⟩
      rw [hres] at hout
      simp at hout
  | some r =>
      by_cases hst : r.status = Status.draft
      · by_cases hmiss : missingFields r = []
        · by_cases hamt : parseNumeric r.total_amount ≤ 0
          · have hres : submitBudgetRequest db id now =
                (db, Except.error
                  "Cannot submit budget request. Total amount must be greater than 0") := by
              simp [submitBudgetRequest, hfind, hst, hmiss, hamt]
            refine ⟨fun e he => by rw [hres], fun out hout => ?_⟩
            rw [hres] at hout
            simp at hout
          · have hres : submitBudgetRequest db id now =
                (applySubmit db id now,
                 Except.ok (requestToOut
                   { r with status := Status.submitted
                            submitted_at := some now
                            updated_at := now })) := by
              simp [submitBudgetRequest, hfind, hst, hmiss, hamt]
            refine ⟨fun e he => ?_, fun out hout => ?_⟩
            · rw [hres] at he
              simp at he
            · rw [hres] at hout
              simp only [Except.ok.injEq] at hout
              subst hout
              exact ⟨r, rfl, hst, by simp [hres, applySubmit],
                by simp [hres, applySubmit], by simp [hres, applySubmit],
                rfl, rfl⟩
        · have hres : submitBudgetRequest db id now =
              (db, Except.error
                ("Cannot submit budget request. Missing required fields: " ++
                  String.intercalate ", " (missingFields r))) := by
            simp [submitBudgetRequest, hfind, hst, hmiss]
          refine ⟨fun e he => by rw [hres], fun out hout => ?_⟩
          rw [hres] at hout
          simp at hout
      · have hres : submitBudgetRequest db id now =
            (db, Except.error
              ("Budget request with id " ++ toString id ++
                " is not in draft status. Current status: " ++
                r.status.toStr)) := by
          simp [submitBudgetRequest, hfind, hst]
        refine ⟨fun e he => by rw [hres], fun out hout => ?_⟩
        rw [hres] at hout
        simp at hout

/-- A complete draft ready to submit, and its store. -/
def wReqDraft : RequestRow := exReq Status.draft 1000

/-- Store holding only the submittable draft. -/
def wDbDraft : DB := { requests := [wReqDraft], items := [], files := [] }

/-- Witness for C5: a failing submit leaves the concrete store untouched and
a succeeding submit writes exactly the three lifecycle fields. -/
theorem submitBudgetRequest_atomicity_witness :
    ((submitBudgetRequest wDbNeg 1 99).1 = wDbNeg) ∧
    (∃ r, findRequest wDbDraft 1 = some r ∧ r.status = Status.draft ∧
      (submitBudgetRequest wDbDraft 1 99).1.requests =
        wDbDraft.requests.map (fun x =>
          if x.id = 1 then
            { x with status := Status.submitted
                     submitted_at := some 99
                     updated_at := 99 }
          else x) ∧
      (submitBudgetRequest wDbDraft 1 99).1.items = wDbDraft.items ∧
      (submitBudgetRequest wDbDraft 1 99).1.files = wDbDraft.files ∧
      requestToOut
        { wReqDraft with status := Status.submitted
                         submitted_at := some 99
                         updated_at := 99 } =
        requestToOut
          { r with status := Status.submitted
                   submitted_at := some 99
                   updated_at := 99 } ∧
      (requestToOut
        { wReqDraft with status := Status.submitted
                         submitted_at := some 99
                         updated_at := 99 }).total_amount =
        parseNumeric r.total_amount) :=
  ⟨(submitBudgetRequest_atomicity wDbNeg 1 99).1
      "Cannot submit budget request. Total amount must be greater than 0"
      rfl,
   (submitBudgetRequest_atomicity wDbDraft 1 99).2
      (requestToOut
        { wReqDraft with status := Status.submitted
                         submitted_at := some 99
                         updated_at := 99 })
      rfl⟩

/-- The post-mutation item set after a delete of one row. -/
def itemsWithout (db : DB) (id : Nat) : List ItemRow :=
  db.items.filter (fun i => ¬ i.id = id)

/-- The parent-total write both item mutations that maintain the total share:
set total_amount of every row of the parent id to the sum over the current
(post-mutation) item set and bump updated_at. -/
def setParentTotal (db : DB) (pid now : Nat) : DB :=
  { db with
    requests := db.requests.map (fun r =>
      if r.id = pid then
        { r with total_amount := ⟨sumItems db pid⟩, updated_at := now }
      else r) }

/-- deleteBudgetItem on an absent item id. -/
lemma deleteBudgetItem_not_found (db : DB) (id now : Nat)
    (h : findItem db id = none) : deleteBudgetItem db id now = (db, false) := by
  simp [deleteBudgetItem, h]

/-- deleteBudgetItem when the parent row is missing. -/
lemma deleteBudgetItem_no_parent (db : DB) (id now : Nat) (it : ItemRow)
    (hit : findItem db id = some it)
    (hfr : findRequest db it.budget_request_id = none) :
    deleteBudgetItem db id now = (db, false) := by
  simp [deleteBudgetItem, hit, hfr]

/-- deleteBudgetItem when the parent status is not editable. -/
lemma deleteBudgetItem_locked (db : DB) (id now : Nat) (it : ItemRow)
    (req : RequestRow) (hit : findItem db id = some it)
    (hfr : findRequest db it.budget_request_id = some req)
    (hlk : req.status ∉ editableStatuses) :
    deleteBudgetItem db id now = (db, false) := by
  simp [deleteBudgetItem, hit, hfr, hlk]

/-- deleteBudgetItem when the parent status is editable: the row goes and the
parent total is recomputed over the remaining items. -/
lemma deleteBudgetItem_editable (db : DB) (id now : Nat) (it : ItemRow)
    (req : RequestRow) (hit : findItem db id = some it)
    (hfr : findRequest db it.budget_request_id = some req)
    (hed : req.status ∈ editableStatuses) :
    deleteBudgetItem db id now =
      (setParentTotal { db with items := itemsWithout db id }
        it.budget_request_id now, true) := by
  simp [deleteBudgetItem, setParentTotal, itemsWithout, hit, hfr, hed]

/-- updateBudgetItem on an absent item id. -/
lemma updateBudgetItem_not_found (db : DB) (input : UpdateBudgetItemInput)
    (now : Nat) (h : findItem db input.id = none) :
    updateBudgetItem db input now =
      (db, Except.error
        ("Budget item with id " ++ toString input.id ++ " not found")) := by
  simp [updateBudgetItem, h]

/-- updateBudgetItem when the parent is approved or rejected. -/
lemma updateBudgetItem_locked (db : DB) (input : UpdateBudgetItemInput)
    (now : Nat) (it : ItemRow) (req : RequestRow)
    (hit : findItem db input.id = some it)
    (hfr : findRequest db it.budget_request_id = some req)
    (hlk : req.status ∉ editableStatuses) :
    updateBudgetItem db input now =
      (db, Except.error
        ("Cannot update budget items of a " ++ req.status.toStr ++
          " budget request")) := by
  simp [updateBudgetItem, hit, hfr, hlk]

/-- updateBudgetItem in the permitted case: the row is rewritten via
applyItemUpdate and the parent total recomputed over the updated set. -/
lemma updateBudgetItem_ok (db : DB) (input : UpdateBudgetItemInput)
    (now : Nat) (it : ItemRow) (req : RequestRow)
    (hit : findItem db input.id = some it)
    (hfr : findRequest db it.budget_request_id = some req)
    (hed : req.status ∈ editableStatuses) :
    updateBudgetItem db input now =
      (setParentTotal
        { db with items := db.items.map (fun i =>
            if i.id = input.id then applyItemUpdate input it else i) }
        it.budget_request_id now,
       Except.ok (itemToOut (applyItemUpdate input it))) := by
  simp [updateBudgetItem, setParentTotal, hit, hfr, hed]

/-- createBudgetItem on an absent parent. -/
lemma createBudgetItem_not_found (db : DB) (input : CreateBudgetItemInput)
    (newId now : Nat) (h : findRequest db input.budget_request_id = none) :
    createBudgetItem db input newId now =
      (db, Except.error
        ("Budget request with id " ++ toString input.budget_request_id ++
          " not found")) := by
  simp [createBudgetItem, h]

/-- createBudgetItem when the parent is approved or rejected. -/
lemma createBudgetItem_locked (db : DB) (input : CreateBudgetItemInput)
    (newId now : Nat) (req : RequestRow)
    (hfr : findRequest db input.budget_request_id = some req)
    (hlk : req.status = Status.approved ∨ req.status = Status.rejected) :
    createBudgetItem db input newId now =
      (db, Except.error
        ("Cannot add budget items to a " ++ req.status.toStr ++
          " budget request")) := by
  simp [createBudgetItem, hfr, hlk]

/-- createBudgetItem in the permitted case: the row is appended and nothing
else changes - in particular the requests table, hence the parent total,
stays as it was. -/
lemma createBudgetItem_ok (db : DB) (input : CreateBudgetItemInput)
    (newId now : Nat) (req : RequestRow)
    (hfr : findRequest db input.budget_request_id = some req)
    (hgate : ¬(req.status = Status.approved ∨ req.status = Status.rejected)) :
    createBudgetItem db input newId now =
      ({ db with items := db.items ++ [newItemRow input newId now] },
       Except.ok (itemToOut (newItemRow input newId now))) := by
  simp [createBudgetItem, hfr, hgate]

/-- uploadFile on an absent parent. -/
lemma uploadFile_not_found (db : DB) (input : CreateFileUploadInput)
    (newId now : Nat) (h : findRequest db input.budget_request_id = none) :
    uploadFile db input newId now =
      (db, Except.error
        ("Budget request with ID " ++ toString input.budget_request_id ++
          " not found")) := by
  simp [uploadFile, h]

/-- uploadFile when the parent status is not editable. -/
lemma uploadFile_locked (db : DB) (input : CreateFileUploadInput)
    (newId now : Nat) (req : RequestRow)
    (hfr : findRequest db input.budget_request_id = some req)
    (hlk : req.status ∉ editableStatuses) :
    uploadFile db input newId now =
      (db, Except.error
        ("Cannot upload files to budget request with status: " ++
          req.status.toStr)) := by
  simp [uploadFile, hfr, hlk]

/-- uploadFile rejecting an oversize payload. -/
lemma uploadFile_too_big (db : DB) (input : CreateFileUploadInput)
    (newId now : Nat) (req : RequestRow)
    (hfr : findRequest db input.budget_request_id = some req)
    (hed : req.status ∈ editableStatuses)
    (hsz : input.file_size > maxFileSize) :
    uploadFile db input newId now =
      (db, Except.error
        ("File size " ++ toString input.file_size ++
          " bytes exceeds maximum allowed size of " ++
          toString maxFileSize ++ " bytes")) := by
  simp [uploadFile, hfr, hed, hsz]

/-- uploadFile rejecting a MIME type outside the allow-list. -/
lemma uploadFile_bad_mime (db : DB) (input : CreateFileUploadInput)
    (newId now : Nat) (req : RequestRow)
    (hfr : findRequest db input.budget_request_id = some req)
    (hed : req.status ∈ editableStatuses)
    (hsz : ¬ input.file_size > maxFileSize)
    (hmt : input.mime_type ∉ allowedMimeTypes) :
    uploadFile db input newId now =
      (db, Except.error
        ("File type " ++ input.mime_type ++ " is not allowed")) := by
  simp [uploadFile, hfr, hed, hsz, hmt]

/-- uploadFile persisting the metadata record when every check passes. -/
lemma uploadFile_ok (db : DB) (input : CreateFileUploadInput)
    (newId now : Nat) (req : RequestRow)
    (hfr : findRequest db input.budget_request_id = some req)
    (hed : req.status ∈ editableStatuses)
    (hsz : ¬ input.file_size > maxFileSize)
    (hmt : input.mime_type ∈ allowedMimeTypes) :
    uploadFile db input newId now =
      ({ db with files := db.files ++ [newFileRow input newId now] },
       Except.ok (newFileRow input newId now)) := by
  simp [uploadFile, hfr, hed, hsz, hmt]

/-- deleteFileUpload on an absent file id. -/
lemma deleteFileUpload_not_found (db : DB) (fsE unlinkF : String → Bool)
    (id : Nat) (h : findFile db id = none) :
    deleteFileUpload db fsE unlinkF id = (db, false) := by
  simp [deleteFileUpload, h]

/-- deleteFileUpload when the join finds no parent row. -/
lemma deleteFileUpload_no_parent (db : DB) (fsE unlinkF : String → Bool)
    (id : Nat) (f : FileRow) (hf : findFile db id = some f)
    (hfr : findRequest db f.budget_request_id = none) :
    deleteFileUpload db fsE unlinkF id = (db, false) := by
  simp [deleteFileUpload, hf, hfr]

/-- deleteFileUpload when the parent status is not editable. -/
lemma deleteFileUpload_locked (db : DB) (fsE unlinkF : String → Bool)
    (id : Nat) (f : FileRow) (req : RequestRow)
    (hf : findFile db id = some f)
    (hfr : findRequest db f.budget_request_id = some req)
    (hlk : req.status ∉ editableStatuses) :
    deleteFileUpload db fsE unlinkF id = (db, false) := by
  simp [deleteFileUpload, hf, hfr, hlk]

/-- deleteFileUpload when the parent is editable: whatever the filesystem
does, the metadata row is removed and the result is true. -/
lemma deleteFileUpload_editable (db : DB) (fsE unlinkF : String → Bool)
    (id : Nat) (f : FileRow) (req : RequestRow)
    (hf : findFile db id = some f)
    (hfr : findRequest db f.budget_request_id = some req)
    (hed : req.status ∈ editableStatuses) :
    deleteFileUpload db fsE unlinkF id =
      ({ db with files := db.files.filter (fun x => ¬ x.id = id) }, true) := by
  by_cases hex : fsE f.file_path <;> by_cases hul : unlinkF f.file_path <;>
    simp [deleteFileUpload, hf, hfr, hed, hex, hul]

/-- updateBudgetItem when the parent row is missing. -/
lemma updateBudgetItem_no_parent (db : DB) (input : UpdateBudgetItemInput)
    (now : Nat) (it : ItemRow) (hit : findItem db input.id = some it)
    (hfr : findRequest db it.budget_request_id = none) :
    updateBudgetItem db input now =
      (db, Except.error
        ("Budget request with id " ++ toString it.budget_request_id ++
          " not found")) := by
  simp [updateBudgetItem, hit, hfr]

/-- C1 (amended): after a successful item delete, and after a successful item
update (modelled from the spec, the implementation being absent), every
stored row of the parent request carries a total_amount equal to the exact
sum of total_cost over the remaining items of that parent (zero when none
remain, the empty sum); a successful item create, however, does not touch the
requests table at all, so the parent total is left stale. -/
theorem total_amount_tracks_items :
    (∀ db id now db', deleteBudgetItem db id now = (db', true) →
      ∀ it, findItem db id = some it →
      ∀ r, r ∈ db'.requests → r.id = it.budget_request_id →
        parseNumeric r.total_amount = sumItems db' it.budget_request_id) ∧
    (∀ db input now db' out,
      updateBudgetItem db input now = (db', Except.ok out) →
      ∀ it, findItem db input.id = some it →
      ∀ r, r ∈ db'.requests → r.id = it.budget_request_id →
        parseNumeric r.total_amount = sumItems db' it.budget_request_id) ∧
    (∀ db input newId now db' out,
      createBudgetItem db input newId now = (db', Except.ok out) →
      db'.requests = db.requests) := by
  refine ⟨?_, ?_, ?_⟩
  · intro db id now db' hdel it hit r hr hid
    rcases hfr : findRequest db it.budget_request_id with _ | req
    · rw [deleteBudgetItem_no_parent db id now it hit hfr] at hdel
      simp at hdel
    · by_cases hed : req.status ∈ editableStatuses
      · rw [deleteBudgetItem_editable db id now it req hit hfr hed] at hdel
        injection hdel with h1 h2
        subst h1
        simp only [setParentTotal, List.mem_map] at hr
        obtain ⟨x, hx, rfl⟩ := hr
        by_cases hxid : x.id = it.budget_request_id
        · rw [if_pos hxid]
          simp [sumItems, setParentTotal, parseNumeric]
        · rw [if_neg hxid] at hid
          exact absurd hid hxid
      · rw [deleteBudgetItem_locked db id now it req hit hfr hed] at hdel
        simp at hdel
  · intro db input now db' out hupd it hit r hr hid
    rcases hfr : findRequest db it.budget_request_id with _ | req
    · rw [updateBudgetItem_no_parent db input now it hit hfr] at hupd
      simp at hupd
    · by_cases hlk : req.status ∉ editableStatuses
      · rw [updateBudgetItem_locked db input now it req hit hfr hlk] at hupd
        simp at hupd
      · rw [updateBudgetItem_ok db input now it req hit hfr (not_not.mp hlk)] at hupd
        injection hupd with h1 h2
        subst h1
        simp only [setParentTotal, List.mem_map] at hr
        obtain ⟨x, hx, rfl⟩ := hr
        by_cases hxid : x.id = it.budget_request_id
        · rw [if_pos hxid]
          simp [sumItems, setParentTotal, parseNumeric]
        · rw [if_neg hxid] at hid
          exact absurd hid hxid
  · intro db input newId now db' out hcr
    rcases hfr : findRequest db input.budget_request_id with _ | req
    · rw [createBudgetItem_not_found db input newId now hfr] at hcr
      simp at hcr
    · by_cases hlk : req.status = Status.approved ∨ req.status = Status.rejected
      · rw [createBudgetItem_locked db input newId now req hfr hlk] at hcr
        simp at hcr
      · rw [createBudgetItem_ok db input newId now req hfr hlk] at hcr
        injection hcr with h1 h2
        subst h1
        rfl

/-- Store with one draft request (stored total 500) and its single item. -/
def wDbItems : DB :=
  { requests := [exReq Status.draft 500], items := [exItem], files := [] }

/-- Update payload that only rewrites total_cost to 750. -/
def wUpdTotal : UpdateBudgetItemInput :=
  { id := 1
    category := Upd.keep
    description := Upd.keep
    unit := Upd.keep
    quantity := Upd.keep
    unit_cost := Upd.keep
    total_cost := Upd.put 750
    justification := Upd.keep }

/-- Witness for the amended C1: deleting the only item drives the parent
total to the empty sum, and an update drives it to the new item total. -/
theorem total_amount_tracks_items_witness :
    (parseNumeric
        ({ exReq Status.draft 500 with
            total_amount := ⟨0⟩, updated_at := 77 } : RequestRow).total_amount =
      sumItems (deleteBudgetItem wDbItems 1 77).1 1) ∧
    (parseNumeric
        ({ exReq Status.draft 500 with
            total_amount := ⟨750⟩, updated_at := 77 } : RequestRow).total_amount =
      sumItems (updateBudgetItem wDbItems wUpdTotal 77).1 1) :=
  ⟨total_amount_tracks_items.1 wDbItems 1 77
      (deleteBudgetItem wDbItems 1 77).1 rfl exItem rfl
      ({ exReq Status.draft 500 with total_amount := ⟨0⟩, updated_at := 77 })
      (by decide) rfl,
   total_amount_tracks_items.2.1 wDbItems wUpdTotal 77
      (updateBudgetItem wDbItems wUpdTotal 77).1
      (itemToOut (applyItemUpdate wUpdTotal exItem)) rfl exItem rfl
      ({ exReq Status.draft 500 with total_amount := ⟨750⟩, updated_at := 77 })
      (by decide) rfl⟩

/-- Store with one empty draft request whose stored total is 0. -/
def cxDbC1 : DB :=
  { requests := [exReq Status.draft 0], items := [], files := [] }

/-- Counterexample to C1 as stated: a successful item create (total_cost 100)
leaves the parent's stored total_amount at 0 while the sum over its items is
100, so the invariant does not hold immediately after an item create. -/
theorem createBudgetItem_total_stale :
    ((createBudgetItem cxDbC1 exItemInput 1 20).2 =
      Except.ok (itemToOut (newItemRow exItemInput 1 20))) ∧
    (findRequest (createBudgetItem cxDbC1 exItemInput 1 20).1 1 =
      some (exReq Status.draft 0)) ∧
    parseNumeric (exReq Status.draft 0).total_amount = 0 ∧
    sumItems (createBudgetItem cxDbC1 exItemInput 1 20).1 1 = 100 ∧
    parseNumeric (exReq Status.draft 0).total_amount ≠
      sumItems (createBudgetItem cxDbC1 exItemInput 1 20).1 1 :=
  ⟨rfl, rfl, rfl, by decide, by decide⟩

/-- C2 (amended): item update (modelled from the spec), file upload and
file/item delete are gated on the full locked class - any parent status
outside editableStatuses makes the deletes return false and the update and
upload throw an error naming the status - and all are permitted, other
preconditions holding, when the status is draft or revision_requested; item
create, however - real code - fails only when the parent is approved or
rejected, naming that status, and succeeds for every other status,
including submitted and under_review. -/
theorem status_gating :
    (∀ db input newId now req,
      findRequest db input.budget_request_id = some req →
      ((req.status = Status.approved ∨ req.status = Status.rejected) →
        createBudgetItem db input newId now =
          (db, Except.error
            ("Cannot add budget items to a " ++ req.status.toStr ++
              " budget request"))) ∧
      (¬(req.status = Status.approved ∨ req.status = Status.rejected) →
        createBudgetItem db input newId now =
          ({ db with items := db.items ++ [newItemRow input newId now] },
           Except.ok (itemToOut (newItemRow input newId now))))) ∧
    (∀ db input now it req,
      findItem db input.id = some it →
      findRequest db it.budget_request_id = some req →
      (req.status ∉ editableStatuses →
        updateBudgetItem db input now =
          (db, Except.error
            ("Cannot update budget items of a " ++ req.status.toStr ++
              " budget request"))) ∧
      (req.status ∈ editableStatuses →
        (updateBudgetItem db input now).2 =
          Except.ok (itemToOut (applyItemUpdate input it)))) ∧
    (∀ db input newId now req,
      findRequest db input.budget_request_id = some req →
      req.status ∉ editableStatuses →
      uploadFile db input newId now =
        (db, Except.error
          ("Cannot upload files to budget request with status: " ++
            req.status.toStr))) ∧
    (∀ db input newId now req,
      findRequest db input.budget_request_id = some req →
      req.status ∈ editableStatuses →
      ¬ input.file_size > maxFileSize →
      input.mime_type ∈ allowedMimeTypes →
      (uploadFile db input newId now).2 =
        Except.ok (newFileRow input newId now)) ∧
    (∀ db id now it req,
      findItem db id = some it →
      findRequest db it.budget_request_id = some req →
      req.status ∉ editableStatuses →
      deleteBudgetItem db id now = (db, false)) ∧
    (∀ db id now it req,
      findItem db id = some it →
      findRequest db it.budget_request_id = some req →
      req.status ∈ editableStatuses →
      (deleteBudgetItem db id now).2 = true) ∧
    (∀ db fsE unlinkF id f req,
      findFile db id = some f →
      findRequest db f.budget_request_id = some req →
      req.status ∉ editableStatuses →
      deleteFileUpload db fsE unlinkF id = (db, false)) ∧
    (∀ db fsE unlinkF id f req,
      findFile db id = some f →
      findRequest db f.budget_request_id = some req →
      req.status ∈ editableStatuses →
      (deleteFileUpload db fsE unlinkF id).2 = true) := by
  refine ⟨?_, ?_, ?_, ?_, ?_, ?_, ?_, ?_⟩
  · intro db input newId now req hfr
    exact ⟨fun hlk => createBudgetItem_locked db input newId now req hfr hlk,
      fun hgate => createBudgetItem_ok db input newId now req hfr hgate⟩
  · intro db input now it req hit hfr
    refine ⟨fun hlk => updateBudgetItem_locked db input now it req hit hfr hlk,
      fun hed => ?_⟩
    rw [updateBudgetItem_ok db input now it req hit hfr hed]
  · intro db input newId now req hfr hlk
    exact uploadFile_locked db input newId now req hfr hlk
  · intro db input newId now req hfr hed hsz hmt
    rw [uploadFile_ok db input newId now req hfr hed hsz hmt]
  · intro db id now it req hit hfr hlk
    exact deleteBudgetItem_locked db id now it req hit hfr hlk
  · intro db id now it req hit hfr hed
    rw [deleteBudgetItem_editable db id now it req hit hfr hed]
  · intro db fsE unlinkF id f req hf hfr hlk
    exact deleteFileUpload_locked db fsE unlinkF id f req hf hfr hlk
  · intro db fsE unlinkF id f req hf hfr hed
    rw [deleteFileUpload_editable db fsE unlinkF id f req hf hfr hed]

/-- A stored file row attached to request 1. -/
def exFile : FileRow :=
  { id := 1
    budget_request_id := 1
    filename := "a.pdf"
    original_filename := "a.pdf"
    file_path := "/uploads/a.pdf"
    file_size := 100
    mime_type := "application/pdf"
    uploaded_at := 12 }

/-- A 1-byte PDF upload payload for request 1. -/
def exFileInput : CreateFileUploadInput :=
  { budget_request_id := 1
    filename := "a.pdf"
    original_filename := "a.pdf"
    file_path := "/uploads/a.pdf"
    file_size := 1
    mime_type := "application/pdf" }

/-- Store with an approved request. -/
def wDbApproved : DB :=
  { requests := [exReq Status.approved 1000], items := [exItem], files := [] }

/-- Store with a submitted request plus one item and one file. -/
def wDbSubmittedFull : DB :=
  { requests := [exReq Status.submitted 1000]
    items := [exItem]
    files := [exFile] }

/-- Witness for the amended C2: concrete gating outcomes on small stores,
including a permitted item update on a draft parent. -/
theorem status_gating_witness :
    (createBudgetItem wDbApproved exItemInput 2 20 =
      (wDbApproved, Except.error
        ("Cannot add budget items to a " ++ Status.approved.toStr ++
          " budget request"))) ∧
    (updateBudgetItem wDbApproved wUpdTotal 20 =
      (wDbApproved, Except.error
        ("Cannot update budget items of a " ++ Status.approved.toStr ++
          " budget request"))) ∧
    ((updateBudgetItem wDbItems wUpdTotal 20).2 =
      Except.ok (itemToOut (applyItemUpdate wUpdTotal exItem))) ∧
    (uploadFile wDbSubmittedFull exFileInput 2 20 =
      (wDbSubmittedFull, Except.error
        ("Cannot upload files to budget request with status: " ++
          Status.submitted.toStr))) ∧
    ((uploadFile wDbDraft exFileInput 1 20).2 =
      Except.ok (newFileRow exFileInput 1 20)) ∧
    (deleteBudgetItem wDbSubmittedFull 1 20 = (wDbSubmittedFull, false)) ∧
    ((deleteBudgetItem wDbItems 1 20).2 = true) ∧
    (deleteFileUpload wDbSubmittedFull (fun _ => true) (fun _ => true) 1 =
      (wDbSubmittedFull, false)) ∧
    ((deleteFileUpload
        { wDbItems with files := [exFile] }
        (fun _ => true) (fun _ => true) 1).2 = true) :=
  ⟨(status_gating.1 wDbApproved exItemInput 2 20 (exReq Status.approved 1000)
      rfl).1 (by decide),
   (status_gating.2.1 wDbApproved wUpdTotal 20 exItem
      (exReq Status.approved 1000) rfl rfl).1 (by decide),
   (status_gating.2.1 wDbItems wUpdTotal 20 exItem
      (exReq Status.draft 500) rfl rfl).2 (by decide),
   status_gating.2.2.1 wDbSubmittedFull exFileInput 2 20
      (exReq Status.submitted 1000) rfl (by decide),
   status_gating.2.2.2.1 wDbDraft exFileInput 1 20 wReqDraft rfl
      (by decide) (by decide) (by decide),
   status_gating.2.2.2.2.1 wDbSubmittedFull 1 20 exItem
      (exReq Status.submitted 1000) rfl rfl (by decide),
   status_gating.2.2.2.2.2.1 wDbItems 1 20 exItem (exReq Status.draft 500)
      rfl rfl (by decide),
   status_gating.2.2.2.2.2.2.1 wDbSubmittedFull (fun _ => true)
      (fun _ => true) 1 exFile (exReq Status.submitted 1000) rfl rfl
      (by decide),
   status_gating.2.2.2.2.2.2.2 { wDbItems with files := [exFile] }
      (fun _ => true) (fun _ => true) 1 exFile (exReq Status.draft 500)
      rfl rfl (by decide)⟩

/-- Store with a submitted request and nothing else. -/
def cxDbC2 : DB :=
  { requests := [exReq Status.submitted 1000], items := [], files := [] }

/-- Counterexample to C2 as stated: with the parent in status submitted - a
member of the locked class - createBudgetItem succeeds instead of failing. -/
theorem createBudgetItem_allowed_when_submitted :
    (findRequest cxDbC2 1).map (fun r => r.status) = some Status.submitted ∧
    (createBudgetItem cxDbC2 exItemInput 1 20).2 =
      Except.ok (itemToOut (newItemRow exItemInput 1 20)) :=
  ⟨rfl, rfl⟩

/-- C4: for a successful item update (modelled from the spec, the
implementation being absent from src), the stored total_cost of the updated
row is the explicitly supplied total_cost verbatim when one is given;
otherwise, when unit_cost and/or quantity is supplied, it is the effective
unit_cost times the effective quantity, a null or absent quantity counting
as 1. -/
theorem updateBudgetItem_derived_total_cost (db : DB)
    (input : UpdateBudgetItemInput) (now : Nat) (db' : DB)
    (out : BudgetItemOut) (it : ItemRow)
    (hupd : updateBudgetItem db input now = (db', Except.ok out))
    (hit : findItem db input.id = some it) :
    ∀ i ∈ db'.items, i.id = input.id →
      (∀ t, input.total_cost = Upd.put t → i.total_cost = ⟨t⟩) ∧
      (input.total_cost = Upd.keep →
        ∀ u, input.unit_cost = Upd.put u →
        ∀ q, applyUpd input.quantity it.quantity = some q →
          i.total_cost = ⟨u * q⟩) ∧
      (input.total_cost = Upd.keep →
        ∀ u, input.unit_cost = Upd.put u →
        applyUpd input.quantity it.quantity = none →
          i.total_cost = ⟨u⟩) ∧
      (input.total_cost = Upd.keep → input.unit_cost = Upd.keep →
        ∀ q, input.quantity = Upd.put (some q) →
          i.total_cost = ⟨parseNumeric it.unit_cost * q⟩) ∧
      (input.total_cost = Upd.keep → input.unit_cost = Upd.keep →
        input.quantity = Upd.put none →
          i.total_cost = ⟨parseNumeric it.unit_cost⟩) := by
  intro i hi hid
  rcases hfr : findRequest db it.budget_request_id with _ | req
  · rw [updateBudgetItem_no_parent db input now it hit hfr] at hupd
    simp at hupd
  · by_cases hlk : req.status ∉ editableStatuses
    · rw [updateBudgetItem_locked db input now it req hit hfr hlk] at hupd
      simp at hupd
    · rw [updateBudgetItem_ok db input now it req hit hfr (not_not.mp hlk)] at hupd
      injection hupd with h1 h2
      subst h1
      simp only [setParentTotal, List.mem_map] at hi
      obtain ⟨x, hx, rfl⟩ := hi
      by_cases hxid : x.id = input.id
      · rw [if_pos hxid]
        have htc : (applyItemUpdate input it).total_cost =
            ⟨derivedTotalCost input it⟩ := rfl
        refine ⟨?_, ?_, ?_, ?_, ?_⟩
        · intro t ht
          rw [htc]
          simp [derivedTotalCost, ht]
        · intro hk u hu q hq
          rw [htc]
          simp [derivedTotalCost, hk, hu, hq]
        · intro hk u hu hq
          rw [htc]
          simp [derivedTotalCost, hk, hu, hq]
        · intro hk hu q hq
          rw [htc]
          simp [derivedTotalCost, hk, hu, hq, applyUpd]
        · intro hk hu hq
          rw [htc]
          simp [derivedTotalCost, hk, hu, hq, applyUpd]
      · rw [if_neg hxid] at hid
        exact absurd hid hxid

/-- Update payload that only rewrites unit_cost to 80. -/
def wUpdUnit : UpdateBudgetItemInput :=
  { id := 1
    category := Upd.keep
    description := Upd.keep
    unit := Upd.keep
    quantity := Upd.keep
    unit_cost := Upd.put 80
    total_cost := Upd.keep
    justification := Upd.keep }

/-- Witness for C4: updating only unit_cost on the quantity-10 item stores
total_cost 80 * 10. -/
theorem updateBudgetItem_derived_total_cost_witness :
    (applyItemUpdate wUpdUnit exItem).total_cost = ⟨80 * 10⟩ :=
  (updateBudgetItem_derived_total_cost wDbItems wUpdUnit 77
      (updateBudgetItem wDbItems wUpdUnit 77).1
      (itemToOut (applyItemUpdate wUpdUnit exItem)) exItem rfl rfl
      (applyItemUpdate wUpdUnit exItem) (by decide) rfl).2.1
    rfl 80 rfl 10 rfl

/-- C6: for an existing parent in an editable status, uploadFile rejects a
payload above 52428800 bytes naming the size and the limit, rejects a MIME
type outside the fixed allow-list naming the type, and otherwise persists
the metadata record. -/
theorem uploadFile_validation (db : DB) (input : CreateFileUploadInput)
    (newId now : Nat) (req : RequestRow)
    (hfr : findRequest db input.budget_request_id = some req)
    (hed : req.status ∈ editableStatuses) :
    maxFileSize = 52428800 ∧
    (input.file_size > maxFileSize →
      uploadFile db input newId now =
        (db, Except.error
          ("File size " ++ toString input.file_size ++
            " bytes exceeds maximum allowed size of " ++
            toString maxFileSize ++ " bytes"))) ∧
    (input.file_size ≤ maxFileSize → input.mime_type ∉ allowedMimeTypes →
      uploadFile db input newId now =
        (db, Except.error
          ("File type " ++ input.mime_type ++ " is not allowed"))) ∧
    (input.file_size ≤ maxFileSize → input.mime_type ∈ allowedMimeTypes →
      uploadFile db input newId now =
        ({ db with files := db.files ++ [newFileRow input newId now] },
         Except.ok (newFileRow input newId now))) := by
  refine ⟨rfl, ?_, ?_, ?_⟩
  · intro hsz
    exact uploadFile_too_big db input newId now req hfr hed hsz
  · intro hsz hmt
    exact uploadFile_bad_mime db input newId now req hfr hed
      (by omega) hmt
  · intro hsz hmt
    exact uploadFile_ok db input newId now req hfr hed (by omega) hmt

/-- A 60 MiB PDF payload. -/
def bigFileInput : CreateFileUploadInput :=
  { exFileInput with file_size := 60 * 1024 * 1024 }

/-- An executable payload of 1 byte. -/
def exeFileInput : CreateFileUploadInput :=
  { exFileInput with mime_type := "application/x-executable" }

/-- Witness for C6: the three concrete scenarios of the spec. -/
theorem uploadFile_validation_witness :
    (uploadFile wDbDraft bigFileInput 1 20 =
      (wDbDraft, Except.error
        ("File size " ++ toString bigFileInput.file_size ++
          " bytes exceeds maximum allowed size of " ++
          toString maxFileSize ++ " bytes"))) ∧
    (uploadFile wDbDraft exeFileInput 1 20 =
      (wDbDraft, Except.error
        ("File type " ++ exeFileInput.mime_type ++ " is not allowed"))) ∧
    (uploadFile wDbDraft exFileInput 1 20 =
      ({ wDbDraft with files := wDbDraft.files ++ [newFileRow exFileInput 1 20] },
       Except.ok (newFileRow exFileInput 1 20))) :=
  ⟨(uploadFile_validation wDbDraft bigFileInput 1 20 wReqDraft rfl
      (by decide)).2.1 (by decide),
   (uploadFile_validation wDbDraft exeFileInput 1 20 wReqDraft rfl
      (by decide)).2.2.1 (by decide) (by decide),
   (uploadFile_validation wDbDraft exFileInput 1 20 wReqDraft rfl
      (by decide)).2.2.2 (by decide) (by decide)⟩

/-- C7: deleteFileUpload returns boolean false - never an exception, as its
result type records - when the file id is absent (also when the join finds
no parent row) and when the parent status is not editable; when the parent
is editable the metadata row is always deleted and the call returns true
whatever the filesystem reports, the physical-unlink outcome (the unlinkF
oracle) being swallowed. -/
theorem deleteFileUpload_contract (db : DB) (fsE unlinkF : String → Bool)
    (id : Nat) :
    (findFile db id = none →
      deleteFileUpload db fsE unlinkF id = (db, false)) ∧
    (∀ f, findFile db id = some f →
      findRequest db f.budget_request_id = none →
      deleteFileUpload db fsE unlinkF id = (db, false)) ∧
    (∀ f req, findFile db id = some f →
      findRequest db f.budget_request_id = some req →
      req.status ∉ editableStatuses →
      deleteFileUpload db fsE unlinkF id = (db, false)) ∧
    (∀ f req, findFile db id = some f →
      findRequest db f.budget_request_id = some req →
      req.status ∈ editableStatuses →
      deleteFileUpload db fsE unlinkF id =
        ({ db with files := db.files.filter (fun x => ¬ x.id = id) },
         true)) := by
  refine ⟨?_, ?_, ?_, ?_⟩
  · intro h
    exact deleteFileUpload_not_found db fsE unlinkF id h
  · intro f hf hfr
    exact deleteFileUpload_no_parent db fsE unlinkF id f hf hfr
  · intro f req hf hfr hlk
    exact deleteFileUpload_locked db fsE unlinkF id f req hf hfr hlk
  · intro f req hf hfr hed
    exact deleteFileUpload_editable db fsE unlinkF id f req hf hfr hed

/-- Store with the draft request and one stored file. -/
def wDbFileDraft : DB := { wDbDraft with files := [exFile] }

/-- Witness for C7: absent id gives false; with an editable parent and a
failing physical unlink the metadata row is still removed and the result is
true. -/
theorem deleteFileUpload_contract_witness :
    (deleteFileUpload wDbEmpty (fun _ => true) (fun _ => false) 9 =
      (wDbEmpty, false)) ∧
    (deleteFileUpload wDbFileDraft (fun _ => true) (fun _ => true) 1 =
      ({ wDbFileDraft with
          files := wDbFileDraft.files.filter (fun x => ¬ x.id = 1) },
       true)) :=
  ⟨(deleteFileUpload_contract wDbEmpty (fun _ => true) (fun _ => false) 9).1
      rfl,
   (deleteFileUpload_contract wDbFileDraft (fun _ => true) (fun _ => true)
      1).2.2.2 exFile wReqDraft rfl rfl (by decide)⟩

/-- C10: getBudgetRequestById maps an empty select to a null result rather
than a not-found error, maps a non-empty select to the first row with
total_amount converted to a native number, and surfaces a storage failure
unchanged as the only error path. -/
theorem getBudgetRequestById_contract :
    (∀ db id, db.requests.filter (fun r => r.id = id) = [] →
      getBudgetRequestById (selectRequestRows db id) = Except.ok none) ∧
    (∀ db id r rest,
      db.requests.filter (fun r => r.id = id) = r :: rest →
      getBudgetRequestById (selectRequestRows db id) =
        Except.ok (some (requestToOut r)) ∧
      (requestToOut r).total_amount = parseNumeric r.total_amount) ∧
    (∀ e, getBudgetRequestById (Except.error e) = Except.error e) := by
  refine ⟨?_, ?_, ?_⟩
  · intro db id h
    simp [getBudgetRequestById, selectRequestRows, h]
  · intro db id r rest h
    exact ⟨by simp [getBudgetRequestById, selectRequestRows, h], rfl⟩
  · intro e
    rfl

/-- Witness for C10: a concrete miss returns null and a concrete hit returns
the entity with the parsed numeric total. -/
theorem getBudgetRequestById_contract_witness :
    (getBudgetRequestById (selectRequestRows wDbDraft 9) = Except.ok none) ∧
    (getBudgetRequestById (selectRequestRows wDbDraft 1) =
      Except.ok (some (requestToOut wReqDraft)) ∧
      (requestToOut wReqDraft).total_amount =
        parseNumeric wReqDraft.total_amount) :=
  ⟨(getBudgetRequestById_contract.1 wDbDraft 9 (by decide)),
   (getBudgetRequestById_contract.2.1 wDbDraft 1 wReqDraft [] (by decide))⟩

/-- C9 (amended): a request update writes exactly updated_at plus the
provided fields - every omitted field of the stored row is retained
byte-identically and an explicit null clears the nullable field; an item
update (modelled from the spec, the implementation being absent) behaves the
same for every field except total_cost, which is recomputed from unit_cost
and quantity by the derived-field rule even when omitted. -/
theorem partial_update_semantics :
    (∀ db input now db' out,
      updateBudgetRequest db input now = (db', Except.ok out) →
      db'.requests = db.requests.map (fun x =>
        if x.id = input.id then applyRequestUpdate input now x else x)) ∧
    (∀ (input : UpdateBudgetRequestInput) (now : Nat) (x : RequestRow),
      (applyRequestUpdate input now x).id = x.id ∧
      (applyRequestUpdate input now x).created_at = x.created_at ∧
      (applyRequestUpdate input now x).submitted_at = x.submitted_at ∧
      (applyRequestUpdate input now x).reviewed_at = x.reviewed_at ∧
      (applyRequestUpdate input now x).updated_at = now ∧
      (input.department_name = Upd.keep →
        (applyRequestUpdate input now x).department_name =
          x.department_name) ∧
      (input.department_code = Upd.keep →
        (applyRequestUpdate input now x).department_code =
          x.department_code) ∧
      (input.department_code = Upd.put none →
        (applyRequestUpdate input now x).department_code = none) ∧
      (input.contact_person = Upd.keep →
        (applyRequestUpdate input now x).contact_person =
          x.contact_person) ∧
      (input.contact_email = Upd.keep →
        (applyRequestUpdate input now x).contact_email = x.contact_email) ∧
      (input.contact_phone = Upd.keep →
        (applyRequestUpdate input now x).contact_phone = x.contact_phone) ∧
      (input.contact_phone = Upd.put none →
        (applyRequestUpdate input now x).contact_phone = none) ∧
      (input.fiscal_year = Upd.keep →
        (applyRequestUpdate input now x).fiscal_year = x.fiscal_year) ∧
      (input.request_title = Upd.keep →
        (applyRequestUpdate input now x).request_title = x.request_title) ∧
      (input.request_description = Upd.keep →
        (applyRequestUpdate input now x).request_description =
          x.request_description) ∧
      (input.total_amount = Upd.keep →
        (applyRequestUpdate input now x).total_amount = x.total_amount) ∧
      (input.priority_level = Upd.keep →
        (applyRequestUpdate input now x).priority_level =
          x.priority_level) ∧
      (input.justification = Upd.keep →
        (applyRequestUpdate input now x).justification = x.justification) ∧
      (input.expected_outcomes = Upd.keep →
        (applyRequestUpdate input now x).expected_outcomes =
          x.expected_outcomes) ∧
      (input.timeline_start = Upd.keep →
        (applyRequestUpdate input now x).timeline_start =
          x.timeline_start) ∧
      (input.timeline_start = Upd.put none →
        (applyRequestUpdate input now x).timeline_start = none) ∧
      (input.timeline_end = Upd.keep →
        (applyRequestUpdate input now x).timeline_end = x.timeline_end) ∧
      (input.timeline_end = Upd.put none →
        (applyRequestUpdate input now x).timeline_end = none) ∧
      (input.status = Upd.keep →
        (applyRequestUpdate input now x).status = x.status) ∧
      (input.reviewer_notes = Upd.keep →
        (applyRequestUpdate input now x).reviewer_notes =
          x.reviewer_notes) ∧
      (input.reviewer_notes = Upd.put none →
        (applyRequestUpdate input now x).reviewer_notes = none)) ∧
    (∀ db input now db' out it,
      updateBudgetItem db input now = (db', Except.ok out) →
      findItem db input.id = some it →
      ∀ i ∈ db'.items, i.id = input.id → i = applyItemUpdate input it) ∧
    (∀ (input : UpdateBudgetItemInput) (it : ItemRow),
      (applyItemUpdate input it).id = it.id ∧
      (applyItemUpdate input it).budget_request_id =
        it.budget_request_id ∧
      (applyItemUpdate input it).created_at = it.created_at ∧
      (input.category = Upd.keep →
        (applyItemUpdate input it).category = it.category) ∧
      (input.description = Upd.keep →
        (applyItemUpdate input it).description = it.description) ∧
      (input.unit = Upd.keep →
        (applyItemUpdate input it).unit = it.unit) ∧
      (input.unit = Upd.put none →
        (applyItemUpdate input it).unit = none) ∧
      (input.quantity = Upd.keep →
        (applyItemUpdate input it).quantity = it.quantity) ∧
      (input.quantity = Upd.put none →
        (applyItemUpdate input it).quantity = none) ∧
      (input.unit_cost = Upd.keep →
        (applyItemUpdate input it).unit_cost = it.unit_cost) ∧
      (input.justification = Upd.keep →
        (applyItemUpdate input it).justification = it.justification) ∧
      (input.justification = Upd.put none →
        (applyItemUpdate input it).justification = none) ∧
      (input.total_cost = Upd.keep → input.unit_cost = Upd.keep →
        input.quantity = Upd.keep →
        (applyItemUpdate input it).total_cost = it.total_cost)) := by
  refine ⟨?_, ?_, ?_, ?_⟩
  · intro db input now db' out hupd
    rcases hfr : findRequest db input.id with _ | r
    · simp [updateBudgetRequest, hfr] at hupd
    · simp only [updateBudgetRequest, hfr] at hupd
      injection hupd with h1 h2
      subst h1
      rfl
  · intro input now x
    refine ⟨rfl, rfl, rfl, rfl, rfl, ?_, ?_, ?_, ?_, ?_, ?_, ?_, ?_, ?_,
      ?_, ?_, ?_, ?_, ?_, ?_, ?_, ?_, ?_, ?_, ?_, ?_⟩ <;>
      (intro h; simp [applyRequestUpdate, applyUpd, h])
  · intro db input now db' out it hupd hit i hi hid
    rcases hfr : findRequest db it.budget_request_id with _ | req
    · rw [updateBudgetItem_no_parent db input now it hit hfr] at hupd
      simp at hupd
    · by_cases hlk : req.status ∉ editableStatuses
      · rw [updateBudgetItem_locked db input now it req hit hfr hlk] at hupd
        simp at hupd
      · rw [updateBudgetItem_ok db input now it req hit hfr (not_not.mp hlk)] at hupd
        injection hupd with h1 h2
        subst h1
        simp only [setParentTotal, List.mem_map] at hi
        obtain ⟨x, hx, rfl⟩ := hi
        by_cases hxid : x.id = input.id
        · rw [if_pos hxid]
        · rw [if_neg hxid] at hid
          exact absurd hid hxid
  · intro input it
    have htc : ∀ h1 : input.total_cost = Upd.keep,
        input.unit_cost = Upd.keep → input.quantity = Upd.keep →
        (applyItemUpdate input it).total_cost = it.total_cost := by
      intro h1 h2 h3
      simp [applyItemUpdate, derivedTotalCost, h1, h2, h3, parseNumeric]
    refine ⟨rfl, rfl, rfl, ?_, ?_, ?_, ?_, ?_, ?_, ?_, ?_, ?_, htc⟩ <;>
      (intro h; simp [applyItemUpdate, applyUpd, h])

/-- Request update payload that clears department_code and nothing else. -/
def wUpdReq : UpdateBudgetRequestInput :=
  { id := 1
    department_name := Upd.keep
    department_code := Upd.put none
    contact_person := Upd.keep
    contact_email := Upd.keep
    contact_phone := Upd.keep
    fiscal_year := Upd.keep
    request_title := Upd.keep
    request_description := Upd.keep
    total_amount := Upd.keep
    priority_level := Upd.keep
    justification := Upd.keep
    expected_outcomes := Upd.keep
    timeline_start := Upd.keep
    timeline_end := Upd.keep
    status := Upd.keep
    reviewer_notes := Upd.keep }

/-- Witness for the amended C9: a concrete request update clears the
explicitly nulled department_code, keeps the omitted contact_person, and
writes rows only through applyRequestUpdate; a concrete item update keeps
the omitted description. -/
theorem partial_update_semantics_witness :
    ((updateBudgetRequest wDbDraft wUpdReq 77).1.requests =
      wDbDraft.requests.map (fun x =>
        if x.id = wUpdReq.id then applyRequestUpdate wUpdReq 77 x else x)) ∧
    ((applyRequestUpdate wUpdReq 77 wReqDraft).department_code = none) ∧
    ((applyRequestUpdate wUpdReq 77 wReqDraft).contact_person =
      wReqDraft.contact_person) ∧
    ((applyItemUpdate wUpdTotal exItem).description = exItem.description) := by
  obtain ⟨hshape, hfields, hitem, hifields⟩ := partial_update_semantics
  refine ⟨?_, ?_, ?_, ?_⟩
  · exact hshape wDbDraft wUpdReq 77 (updateBudgetRequest wDbDraft wUpdReq 77).1
      (requestToOut (applyRequestUpdate wUpdReq 77 wReqDraft)) rfl
  · obtain ⟨-, -, -, -, -, -, -, hnull, -⟩ := hfields wUpdReq 77 wReqDraft
    exact hnull rfl
  · obtain ⟨-, -, -, -, -, -, -, -, hkeep, -⟩ := hfields wUpdReq 77 wReqDraft
    exact hkeep rfl
  · obtain ⟨-, -, -, -, hdesc, -⟩ := hifields wUpdTotal exItem
    exact hdesc rfl

/-- Counterexample to C9 as stated: an item update that omits total_cost but
supplies unit_cost does not leave the omitted total_cost byte-identical -
the stored value moves from 500 to the recomputed 800. -/
theorem updateBudgetItem_changes_omitted_total_cost :
    wUpdUnit.total_cost = Upd.keep ∧
    (findItem wDbItems 1).map (fun i => i.total_cost) = some ⟨500⟩ ∧
    (findItem (updateBudgetItem wDbItems wUpdUnit 77).1 1).map
      (fun i => i.total_cost) = some ⟨800⟩ ∧
    (⟨500⟩ : NumericVal) ≠ ⟨800⟩ :=
  ⟨rfl, rfl, by decide, by decide⟩

/-- C8 (amended): getBudgetRequests returns exactly the window, by offset and
limit, of the matching requests ordered by created_at descending - where the
applied filters are the supplied ones with a department_name supplied as the
empty string ignored (JavaScript truthiness guards that condition) - with
total the count of all matches ignoring pagination and has_more true exactly
when offset + limit < total. -/
theorem getBudgetRequests_pagination (db : DB) (q : GetBudgetRequestsQuery) :
    (∀ o ∈ (getBudgetRequests db q).data,
      ∃ r, r ∈ db.requests ∧ matchesQuery q r = true ∧ o = requestToOut r) ∧
    ((getBudgetRequests db q).data =
      (((List.insertionSort createdDesc
          (db.requests.filter (matchesQuery q))).drop q.offset).take
        q.limit).map requestToOut) ∧
    List.Pairwise (fun a b => b.created_at ≤ a.created_at)
      (getBudgetRequests db q).data ∧
    ((getBudgetRequests db q).total =
      (db.requests.filter (matchesQuery q)).length) ∧
    ((getBudgetRequests db q).has_more = true ↔
      q.offset + q.limit < (getBudgetRequests db q).total) ∧
    ((getBudgetRequests db q).data.length =
      min q.limit
        ((db.requests.filter (matchesQuery q)).length - q.offset)) := by
  refine ⟨?_, rfl, ?_, rfl, ?_, ?_⟩
  · intro o ho
    simp only [getBudgetRequests, List.mem_map] at ho
    obtain ⟨p, hp, rfl⟩ := ho
    have hs : p ∈ List.insertionSort createdDesc
        (db.requests.filter (matchesQuery q)) :=
      List.mem_of_mem_drop (List.mem_of_mem_take hp)
    have hm : p ∈ db.requests.filter (matchesQuery q) :=
      (List.mem_insertionSort createdDesc).mp hs
    have hf := List.mem_filter.mp hm
    exact ⟨p, hf.1, hf.2, rfl⟩
  · have hsorted : List.Pairwise createdDesc
        (List.insertionSort createdDesc
          (db.requests.filter (matchesQuery q))) :=
      List.sorted_insertionSort createdDesc
        (db.requests.filter (matchesQuery q))
    have hsub : List.Sublist
        (((List.insertionSort createdDesc
            (db.requests.filter (matchesQuery q))).drop q.offset).take
          q.limit)
        (List.insertionSort createdDesc
          (db.requests.filter (matchesQuery q))) :=
      (List.take_sublist _ _).trans (List.drop_sublist _ _)
    have hpage := hsorted.sublist hsub
    have : List.Pairwise (fun a b : RequestRow =>
        (requestToOut b).created_at ≤ (requestToOut a).created_at)
        (((List.insertionSort createdDesc
            (db.requests.filter (matchesQuery q))).drop q.offset).take
          q.limit) := hpage
    exact List.pairwise_map.mpr this
  · exact decide_eq_true_iff
  · simp [getBudgetRequests, List.length_take, List.length_drop,
      List.length_insertionSort]

/-- All-open query: no filters, limit 20, offset 0. -/
def qAll : GetBudgetRequestsQuery :=
  { department_name := none
    fiscal_year := none
    status := none
    priority_level := none
    limit := 20
    offset := 0 }

/-- Witness for the amended C8: on a one-request store the returned row is a
match and has_more is false because 0 + 20 is not below total = 1. -/
theorem getBudgetRequests_pagination_witness :
    (∃ r, r ∈ wDbDraft.requests ∧ matchesQuery qAll r = true ∧
      requestToOut wReqDraft = requestToOut r) ∧
    ((getBudgetRequests wDbDraft qAll).has_more = true ↔
      qAll.offset + qAll.limit < (getBudgetRequests wDbDraft qAll).total) :=
  ⟨(getBudgetRequests_pagination wDbDraft qAll).1 (requestToOut wReqDraft)
      (by decide),
   (getBudgetRequests_pagination wDbDraft qAll).2.2.2.2.1⟩

/-- The empty-string department filter. -/
def qEmptyDept : GetBudgetRequestsQuery :=
  { department_name := some ""
    fiscal_year := none
    status := none
    priority_level := none
    limit := 20
    offset := 0 }

/-- Counterexample to C8 as stated: with department_name supplied as the
empty string, the only stored request - whose department_name is
Engineering, not the empty string - is still returned, so the result is not
the set of requests matching the supplied equality filter. -/
theorem getBudgetRequests_ignores_empty_name_filter :
    qEmptyDept.department_name = some "" ∧
    (getBudgetRequests wDbDraft qEmptyDept).data.map
      (fun o => o.department_name) = ["Engineering"] ∧
    ("Engineering" : String) ≠ "" :=
  ⟨rfl, by decide, by decide⟩
